import Mathlib

/-!
Verification development for the DocumentQAProject backend
(`backend/gemini.py`, `backend/models.py`).

The backend keeps an in-memory dictionary `documents_store` mapping generated
document ids to `ProcessedDocument` records, fills it through
`process_pdf_document` (the Ingestion Pipeline), and exposes the query
operations `query_document`, `summarize_document_section`,
`extract_evaluation_results` and `arxiv_lookup_tool` over it.

External collaborators (the `filetype` sniffer, the PyMuPDF rasteriser, the
OpenAI chat completion endpoint, `json.loads`, and the `arxiv` search client)
are modelled as oracle function parameters; everything the repository itself
computes is embedded as executable Lean definitions below.  Each query
operation returns, next to its `Except` result, the number of
generation-capability calls it performed, so that the "does not invoke the
generation capability" parts of the specification are statable.
-/

namespace DocQA

/-- Python whitespace characters, the set used by `str.strip()`. -/
def pyIsSpace (c : Char) : Bool :=
  c = ' ' || c = '\t' || c = '\n' || c = '\r' || c = '\x0b' || c = '\x0c'

/-- Python `str.strip()`: drop leading and trailing whitespace. -/
def pyStrip (s : String) : String :=
  String.mk (((s.toList.dropWhile pyIsSpace).reverse.dropWhile pyIsSpace).reverse)

/-- Python `str.lower()`: charwise ASCII lowercasing (the Unicode special
cases of CPython are outside the claims' inputs). -/
def pyLower (s : String) : String :=
  String.mk (s.toList.map Char.toLower)

/-- Python truthiness of an `Optional[str]` value: `None` and the empty
string are falsy, every other string is truthy (`if section_title:`). -/
def pyTruthy : Option String → Bool
  | none => false
  | some s => !s.isEmpty

/-- A JSON value as produced by `json.loads`. -/
inductive PyJson where
  | str (s : String)
  | num (n : Int)
  | bool (b : Bool)
  | null
  | arr (items : List PyJson)
  | obj (fields : List (String × PyJson))

/-- Is the value a JSON object (a Python `dict`)? -/
def PyJson.isObj : PyJson → Bool
  | .obj _ => true
  | _ => false

/-- First binding of key `k` in a JSON object field list (Python dict keys
are unique, so first match is the binding). -/
def objGet : List (String × PyJson) → String → Option PyJson
  | [], _ => none
  | (k', v) :: rest, k => if k' = k then some v else objGet rest k

/-- Python `dict.get(k, d)`: the binding for `k`, or the default `d`. -/
def objGetD (fields : List (String × PyJson)) (k : String) (d : PyJson) : PyJson :=
  (objGet fields k).getD d

mutual

/-- Serialisation of a JSON value, modelling `json.dumps(metadata, indent=2)`
up to whitespace layout (the pretty-printing of `indent=2` is not reproduced;
the serialised text is only ever fed verbatim into a generation-capability
prompt, and no claim depends on its exact layout). -/
def jsonDumps : PyJson → String
  | .str s => "\x22" ++ s ++ "\x22"
  | .num n => toString n
  | .bool b => cond b "true" "false"
  | .null => "null"
  | .arr items => "[" ++ jsonDumpsItems items ++ "]"
  | .obj fields => "\x7b" ++ jsonDumpsFields fields ++ "\x7d"

/-- Comma-separated serialisation of JSON array items. -/
def jsonDumpsItems : List PyJson → String
  | [] => ""
  | [x] => jsonDumps x
  | x :: y :: rest => jsonDumps x ++ ", " ++ jsonDumpsItems (y :: rest)

/-- Comma-separated serialisation of JSON object fields. -/
def jsonDumpsFields : List (String × PyJson) → String
  | [] => ""
  | [(k, v)] => "\x22" ++ k ++ "\x22: " ++ jsonDumps v
  | (k, v) :: f :: rest =>
      "\x22" ++ k ++ "\x22: " ++ jsonDumps v ++ ", " ++ jsonDumpsFields (f :: rest)

end

/-- The error taxonomy of the specification, mapped onto the code branches
that raise.  The backend raises `ValueError` (or lets library exceptions
escape) with a message; the constructor records which branch raised and the
carried message. -/
inductive PyErr where
  | unsupportedFormat (msg : String)
  | conversionError (msg : String)
  | extractionError (msg : String)
  | documentNotFound (document_id : String)
  | sectionNotFound (section_title : String)
  | genFailure (msg : String)
  | typeError (msg : String)
deriving DecidableEq

/-- `models.ProcessedDocument`.  `metadata` is stored exactly as parsed from
the extraction response (`Dict[str, Any]` in the source).  `extracted_text`
is the raw value of `extracted_metadata.get("text_content", "")`; the
pydantic coercion of that field to `str` is outside the scope of the claims
and is not modelled. -/
structure ProcessedDocument where
  id : String
  filename : String
  extracted_text : PyJson
  metadata : PyJson

/-- The in-memory `documents_store`, a Python dict as an insertion-ordered
association list with unique keys maintained by `dictSet`. -/
abbrev Store := List (String × ProcessedDocument)

/-- Dict lookup: `documents_store[k]` / `k in documents_store`. -/
def lookupStore : Store → String → Option ProcessedDocument
  | [], _ => none
  | (k', v) :: rest, k => if k' = k then some v else lookupStore rest k

/-- Python dict assignment `documents_store[k] = v`: replaces the binding in
place when `k` is present, appends a new binding otherwise. -/
def dictSet : Store → String → ProcessedDocument → Store
  | [], k, v => [(k, v)]
  | (k', v') :: rest, k, v =>
      if k' = k then (k, v) :: rest else (k', v') :: dictSet rest k v

/-- The Document Store put operation: line 112 of `gemini.py`,
`documents_store[doc_id] = processed_doc`, keyed by the document id. -/
def storePut (store : Store) (doc : ProcessedDocument) : Store :=
  dictSet store doc.id doc

/-- Raw uploaded byte content. -/
abbrev Bytes := List Nat

/-- One rendered page image (the base64 PNG data-URL part built per page). -/
abbrev Image := String

/-- `process_pdf_document(file_content, filename)`, with its external
collaborators as oracles:
* `filetype_guess` — `filetype.guess(file_content)`, returning the sniffed
  MIME type (`kind.mime`) or `none`;
* `doc_id` — the fresh `str(uuid.uuid4())` generated for this call;
* `rasterize` — the PyMuPDF page loop (`fitz.open` + per-page pixmaps),
  returning the ordered page images or the exception message it raised;
* `gen_extract` — the `client.chat.completions.create` call with the fixed
  extraction prompt plus the page images (JSON response format,
  temperature 0), returning the response message content or a failure;
* `json_loads` — `json.loads` on that content, `none` on `JSONDecodeError`.
The global `documents_store` is threaded explicitly: the function returns
the result together with the store after the call.  Every failure branch
returns the store it was given, because the source assigns into
`documents_store` only on the single success path (line 112). -/
def process_pdf_document
    (filetype_guess : Bytes → Option String)
    (doc_id : String)
    (rasterize : Bytes → Except String (List Image))
    (gen_extract : List Image → Except String String)
    (json_loads : String → Option PyJson)
    (store : Store)
    (file_content : Bytes) (filename : String) :
    Except PyErr ProcessedDocument × Store :=
  match filetype_guess file_content with
  | none =>
      (.error (.unsupportedFormat "Could not determine file type from content."), store)
  | some mime =>
      if mime ≠ "application/pdf" then
        (.error (.unsupportedFormat
          ("Unsupported file type: " ++ mime ++ ". Only PDFs are allowed.")), store)
      else
        match rasterize file_content with
        | .error e =>
            (.error (.conversionError ("Error converting PDF pages to images: " ++ e)), store)
        | .ok _image_parts =>
            match gen_extract _image_parts with
            | .error e => (.error (.extractionError e), store)
            | .ok raw =>
                match json_loads raw with
                | none => (.error (.extractionError "JSONDecodeError"), store)
                | some (.obj fields) =>
                    let processed_doc : ProcessedDocument :=
                      { id := doc_id
                        filename := filename
                        extracted_text := objGetD fields "text_content" (.str "")
                        metadata := .obj fields }
                    (.ok processed_doc, dictSet store doc_id processed_doc)
                | some _ =>
                    -- json.loads succeeded but gave a non-dict, so the
                    -- subsequent `.get("text_content", ...)` raises
                    -- AttributeError, caught and re-raised at line 115.
                    (.error (.extractionError "AttributeError"), store)

/-- The generation capability for the text operations: prompt in, response
message content out (`client.chat.completions.create` followed by
`response.choices[0].message.content`), or a failure raised by the call. -/
abbrev GenCap := String → Except String String

/-- The prompt built by `query_document` (lines 128-139).  Literal prose of
the source f-string is carried over with punctuation restricted to what this
development can quote; the claims depend only on which data flow into the
prompt. -/
def qaPrompt (document_content question : String) : String :=
  "You are an AI assistant specialized in analyzing documents.\n" ++
  "Based on the following document content, answer the question.\n" ++
  "If the answer is not explicitly stated in the document, state that you cannot find the information.\n\n" ++
  "Document Content (structured JSON):\n" ++ document_content ++ "\n\n" ++
  "Question: " ++ question ++ "\n\nAnswer:\n"

/-- The prompt built by `summarize_document_section` (lines 175-183). -/
def summPrompt (granularity content_to_summarize : String) : String :=
  "Summarize the following content.\nGranularity: " ++ granularity ++ ".\n\n" ++
  "Content:\n" ++ content_to_summarize ++ "\n\nSummary:\n"

/-- The prompt built by `extract_evaluation_results` (lines 202-218). -/
def extractPrompt (document_content query : String) : String :=
  "From the following document content, extract specific evaluation results or key data points related to the query: \x22" ++
  query ++ "\x22.\n" ++
  "Focus on numerical values, metrics, and their descriptions.\n" ++
  "Output the extracted information as a JSON object with relevant key-value pairs.\n" ++
  "If no relevant information is found, return an empty JSON object: \x7b\x7d.\n\n" ++
  "Document Content (structured JSON):\n" ++ document_content ++ "\n\n" ++
  "Extraction Query: " ++ query ++ "\n\nExtracted Results (JSON):\n"

/-- `metadata.get("title", "")`: how the backend observes the `title` field
of a metadata dict wherever it is read individually (the `dict.get` default
used throughout; the source serialises `title` only inside the full
`json.dumps(metadata)`). -/
def metaTitle (fields : List (String × PyJson)) : PyJson :=
  objGetD fields "title" (.str "")

/-- `doc.metadata.get("abstract", "")`, line 168. -/
def metaAbstract (fields : List (String × PyJson)) : PyJson :=
  objGetD fields "abstract" (.str "")

/-- `doc.metadata.get("sections", [])`, lines 159 and 169. -/
def metaSections (fields : List (String × PyJson)) : PyJson :=
  objGetD fields "sections" (.arr [])

/-- `metadata.get("references", [])`: the `references` field under the same
`dict.get` default semantics. -/
def metaReferences (fields : List (String × PyJson)) : PyJson :=
  objGetD fields "references" (.arr [])

/-- `query_document(document_id, question)`.  The second component counts
generation-capability calls made during the operation. -/
def query_document (gen : GenCap) (store : Store)
    (document_id question : String) : Except PyErr String × Nat :=
  match lookupStore store document_id with
  | none => (.error (.documentNotFound document_id), 0)
  | some doc =>
      let document_content := jsonDumps doc.metadata
      match gen (qaPrompt document_content question) with
      | .error e => (.error (.genFailure e), 1)
      | .ok resp => (.ok (pyStrip resp), 1)

/-- Coercion of a JSON value to a string where the source requires an actual
`str` (attribute access such as `.lower()` / `.strip()`, or `str + str`
concatenation); any other value raises in Python. -/
def asStrE : PyJson → Except PyErr String
  | .str s => .ok s
  | _ => .error (.typeError "expected a string value")

/-- `section[k]`: dict subscription on a section record; `KeyError` when the
key is absent, `TypeError` when the record is not a dict. -/
def sectionField (s : PyJson) (k : String) : Except PyErr PyJson :=
  match s with
  | .obj fields =>
      match objGet fields k with
      | some v => .ok v
      | none => .error (.typeError ("KeyError: " ++ k))
  | _ => .error (.typeError "section is not an object")

/-- Iterating the `sections` value as a list.  (A Python `for` over a
non-list iterable either raises in the loop body or iterates nothing; the
theorems below only concern list-valued `sections`, so every non-list is
mapped to a type error here.) -/
def sectionsList : PyJson → Except PyErr (List PyJson)
  | .arr items => .ok items
  | _ => .error (.typeError "sections is not a list")

/-- The section-lookup loop of `summarize_document_section` (lines 158-163):
first section whose `title` equals the target case-insensitively, returning
its `content`; `none` when the loop ends with `found_section` still false. -/
def findSectionContent (sections : List PyJson) (section_title : String) :
    Except PyErr (Option String) :=
  match sections with
  | [] => .ok none
  | s :: rest =>
      match sectionField s "title" with
      | .error e => .error e
      | .ok tj =>
          match asStrE tj with
          | .error e => .error e
          | .ok t =>
              if pyLower t = pyLower section_title then
                match sectionField s "content" with
                | .error e => .error e
                | .ok cj => (asStrE cj).map some
              else findSectionContent rest section_title

/-- The whole-document accumulation loop (lines 169-170): for each section,
append `title ++ ":\n" ++ content ++ "\n\n"`.  (The source interpolates the
fields through an f-string; the theorems below only concern string-valued
fields, where f-string interpolation is the identity.) -/
def sectionsText : List PyJson → Except PyErr String
  | [] => .ok ""
  | s :: rest =>
      match sectionField s "title" with
      | .error e => .error e
      | .ok tj =>
          match asStrE tj with
          | .error e => .error e
          | .ok t =>
              match sectionField s "content" with
              | .error e => .error e
              | .ok cj =>
                  match asStrE cj with
                  | .error e => .error e
                  | .ok c =>
                      match sectionsText rest with
                      | .error e => .error e
                      | .ok restText => .ok (t ++ ":\n" ++ c ++ "\n\n" ++ restText)

/-- The whole-document branch (lines 166-170): abstract (default `""`)
followed by every section rendered by `sectionsText`. -/
def wholeDocContent (fields : List (String × PyJson)) : Except PyErr String :=
  match asStrE (metaAbstract fields) with
  | .error e => .error e
  | .ok abs =>
      match sectionsList (metaSections fields) with
      | .error e => .error e
      | .ok secs =>
          match sectionsText secs with
          | .error e => .error e
          | .ok rest => .ok (abs ++ "\n\n" ++ rest)

/-- `content_to_summarize` as assembled by lines 156-170: the matched
section content when `section_title` is truthy, the whole-document block
otherwise; `SectionNotFound` when the truthy lookup finds no match. -/
def computeContent (metadata : PyJson) (section_title : Option String) :
    Except PyErr String :=
  if pyTruthy section_title then
    let t := section_title.getD ""
    match metadata with
    | .obj fields =>
        match sectionsList (metaSections fields) with
        | .error e => .error e
        | .ok secs =>
            match findSectionContent secs t with
            | .error e => .error e
            | .ok none =>
                .error (.sectionNotFound t)
            | .ok (some c) => .ok c
    | _ => .error (.typeError "metadata is not an object")
  else
    match metadata with
    | .obj fields => wholeDocContent fields
    | _ => .error (.typeError "metadata is not an object")

/-- `summarize_document_section(document_id, section_title=None,
granularity="overview")`.  The second component counts generation-capability
calls: zero on the not-found branches and on the empty-content sentinel
branch, one when the summarisation prompt is actually submitted. -/
def summarize_document_section (gen : GenCap) (store : Store)
    (document_id : String) (section_title : Option String)
    (granularity : String) : Except PyErr String × Nat :=
  match lookupStore store document_id with
  | none => (.error (.documentNotFound document_id), 0)
  | some doc =>
      match computeContent doc.metadata section_title with
      | .error e => (.error e, 0)
      | .ok content_to_summarize =>
          if pyStrip content_to_summarize = "" then
            (.ok "No content found to summarize.", 0)
          else
            match gen (summPrompt granularity content_to_summarize) with
            | .error e => (.error (.genFailure e), 1)
            | .ok resp => (.ok (pyStrip resp), 1)

/-- `extract_evaluation_results(document_id, query)`.  `json_loads` models
`json.loads` on the response content (`none` on `JSONDecodeError`, which is
the only exception the source catches around it); the parsed value is
returned as-is, and parse failure yields the fixed single-key error dict. -/
def extract_evaluation_results (gen : GenCap)
    (json_loads : String → Option PyJson) (store : Store)
    (document_id query : String) : Except PyErr PyJson × Nat :=
  match lookupStore store document_id with
  | none => (.error (.documentNotFound document_id), 0)
  | some doc =>
      let document_content := jsonDumps doc.metadata
      match gen (extractPrompt document_content query) with
      | .error e => (.error (.genFailure e), 1)
      | .ok resp =>
          match json_loads resp with
          | some v => (.ok v, 1)
          | none =>
              (.ok (.obj [("error", .str "Could not parse extracted results as JSON.")]), 1)

/-- One result record of the external `arxiv` search client, with the fields
the source reads (`title`, `authors`, `summary`, `entry_id`, and
`published.isoformat()`). -/
structure ArxivEntry where
  title : String
  authors : List String
  summary : String
  entry_id : String
  published_iso : String

/-- One normalised paper record appended to `papers_data` (lines 253-259). -/
structure PaperRecord where
  title : String
  authors : List String
  summary : String
  url : String
  published : String
deriving DecidableEq

/-- `arxiv_lookup_tool(query, max_results=5)`.  The `search` oracle is the
external arxiv client (`arxiv.Search(...)` plus the iteration of
`search.results()`); any exception it raises anywhere in the `try` block is
caught by `except Exception` and turned into an empty list. -/
def arxiv_lookup_tool (search : String → Nat → Except String (List ArxivEntry))
    (query : String) (max_results : Nat := 5) : List PaperRecord :=
  match search query max_results with
  | .error _e => []
  | .ok results =>
      results.map (fun r =>
        { title := r.title
          authors := r.authors
          summary := r.summary
          url := r.entry_id
          published := r.published_iso })

/-- The `title` field of a section record, when the record is a dict and the
field is a string. -/
def sectionTitleVal (s : PyJson) : Option String :=
  match s with
  | .obj fields =>
      match objGet fields "title" with
      | some (.str t) => some t
      | _ => none
  | _ => none

/-- The `content` field of a section record, when the record is a dict and
the field is a string. -/
def sectionContentVal (s : PyJson) : Option String :=
  match s with
  | .obj fields =>
      match objGet fields "content" with
      | some (.str c) => some c
      | _ => none
  | _ => none

/-- A section record on which the Python loop bodies run without raising:
a dict whose `title` and `content` fields are strings. -/
def wellTypedSection (s : PyJson) : Bool :=
  (sectionTitleVal s).isSome && (sectionContentVal s).isSome

/-- The case-insensitive title comparison of line 160,
`section["title"].lower() == section_title.lower()`, as a predicate on
section records. -/
def titleMatches (section_title : String) (s : PyJson) : Bool :=
  pyLower ((sectionTitleVal s).getD "") == pyLower section_title

/-! ### Concrete fixtures used by witnesses and counterexamples -/

/-- Two well-typed section records. -/
def exSecs : List PyJson :=
  [.obj [("title", .str "Intro"), ("content", .str "Intro text.")],
   .obj [("title", .str "Methods"), ("content", .str "Methods text.")]]

/-- Fields of a fully populated metadata dict. -/
def exFields : List (String × PyJson) :=
  [("title", .str "Paper A"),
   ("abstract", .str "An abstract."),
   ("sections", .arr exSecs),
   ("references", .arr [.str "Ref 1"])]

/-- A well-typed metadata dict with two sections. -/
def exMetaA : PyJson := .obj exFields

/-- A stored document with fully populated metadata. -/
def exDocA : ProcessedDocument :=
  { id := "d1", filename := "a.pdf", extracted_text := .str "", metadata := exMetaA }

/-- A second document carrying the same id as `exDocA` but different
content, to exercise an id collision at the Store. -/
def exDocB : ProcessedDocument :=
  { id := "d1", filename := "b.pdf", extracted_text := .str "", metadata := .obj [] }

/-- A stored document whose abstract and section list are entirely empty. -/
def exDocEmpty : ProcessedDocument :=
  { id := "d2", filename := "e.pdf", extracted_text := .str "",
    metadata := .obj [("abstract", .str ""), ("sections", .arr [])] }

/-- A Store holding `exDocA` and `exDocEmpty`. -/
def exStore : Store := [("d1", exDocA), ("d2", exDocEmpty)]

/-- A generation capability that always answers with a fixed response. -/
def exGen : GenCap := fun _ => .ok "  A generated response.  "

/-- A generation capability that always fails. -/
def exGenFail : GenCap := fun _ => .error "rate limit"

/-! ### Store lemmas (shared helpers) -/

theorem lookup_dictSet_self (store : Store) (k : String) (v : ProcessedDocument) :
    lookupStore (dictSet store k v) k = some v := by
  induction store with
  | nil => simp [dictSet, lookupStore]
  | cons kv rest ih =>
      obtain ⟨k', v'⟩ := kv
      by_cases h : k' = k
      · subst h; simp [dictSet, lookupStore]
      · simp [dictSet, lookupStore, h, ih]

theorem lookup_dictSet_ne (store : Store) (k k' : String) (v : ProcessedDocument)
    (h : k' ≠ k) : lookupStore (dictSet store k v) k' = lookupStore store k' := by
  induction store with
  | nil => simp [dictSet, lookupStore, Ne.symm h]
  | cons kv rest ih =>
      obtain ⟨k0, v0⟩ := kv
      by_cases h0 : k0 = k
      · subst h0
        have hk : ¬k0 = k' := fun hc => h (hc ▸ rfl)
        simp [dictSet, lookupStore, hk]
      · simp only [dictSet, if_neg h0, lookupStore]
        by_cases h1 : k0 = k'
        · simp [h1]
        · simp [h1, ih]

theorem dictSet_not_mem (store : Store) (k : String) (v : ProcessedDocument)
    (h : lookupStore store k = none) : dictSet store k v = store ++ [(k, v)] := by
  induction store with
  | nil => simp [dictSet]
  | cons kv rest ih =>
      obtain ⟨k0, v0⟩ := kv
      by_cases h0 : k0 = k
      · simp [lookupStore, h0] at h
      · simp only [lookupStore, if_neg h0] at h
        simp [dictSet, h0, ih h]

theorem dictSet_length_mem (store : Store) (k : String) (v w : ProcessedDocument)
    (h : lookupStore store k = some w) :
    (dictSet store k v).length = store.length := by
  induction store with
  | nil => simp [lookupStore] at h
  | cons kv rest ih =>
      obtain ⟨k0, v0⟩ := kv
      by_cases h0 : k0 = k
      · subst h0; simp [dictSet]
      · simp only [lookupStore, if_neg h0] at h
        simp [dictSet, h0, ih h]

/-! ### Error-classification lemmas for the summarisation helpers -/

theorem asStrE_error {j : PyJson} {e : PyErr} (h : asStrE j = .error e) :
    ∃ m, e = .typeError m := by
  cases j <;> simp [asStrE] at h <;> exact ⟨_, h.symm⟩

theorem sectionField_error {s : PyJson} {k : String} {e : PyErr}
    (h : sectionField s k = .error e) : ∃ m, e = .typeError m := by
  cases s <;> simp [sectionField] at h
  case obj fields =>
    cases hk : objGet fields k with
    | some v => simp [hk] at h
    | none => simp [hk] at h; exact ⟨_, h.symm⟩
  all_goals exact ⟨_, h.symm⟩

theorem sectionsList_error {j : PyJson} {e : PyErr} (h : sectionsList j = .error e) :
    ∃ m, e = .typeError m := by
  cases j <;> simp [sectionsList] at h <;> exact ⟨_, h.symm⟩

theorem findSectionContent_error {sections : List PyJson} {t : String} {e : PyErr}
    (h : findSectionContent sections t = .error e) : ∃ m, e = .typeError m := by
  induction sections with
  | nil => simp [findSectionContent] at h
  | cons s rest ih =>
      unfold findSectionContent at h
      cases h1 : sectionField s "title" with
      | error e1 =>
          simp only [h1] at h
          cases h
          exact sectionField_error h1
      | ok tj =>
          simp only [h1] at h
          cases h2 : asStrE tj with
          | error e2 =>
              simp only [h2] at h
              cases h
              exact asStrE_error h2
          | ok tstr =>
              simp only [h2] at h
              by_cases hm : pyLower tstr = pyLower t
              · rw [if_pos hm] at h
                cases h3 : sectionField s "content" with
                | error e3 =>
                    simp only [h3] at h
                    cases h
                    exact sectionField_error h3
                | ok cj =>
                    simp only [h3] at h
                    cases h4 : asStrE cj with
                    | error e4 =>
                        simp only [h4, Except.map] at h
                        cases h
                        exact asStrE_error h4
                    | ok cstr => simp only [h4, Except.map] at h; cases h
              · rw [if_neg hm] at h
                exact ih h

theorem sectionsText_error {sections : List PyJson} {e : PyErr}
    (h : sectionsText sections = .error e) : ∃ m, e = .typeError m := by
  induction sections with
  | nil => simp [sectionsText] at h
  | cons s rest ih =>
      unfold sectionsText at h
      cases h1 : sectionField s "title" with
      | error e1 => simp only [h1] at h; cases h; exact sectionField_error h1
      | ok tj =>
          simp only [h1] at h
          cases h2 : asStrE tj with
          | error e2 => simp only [h2] at h; cases h; exact asStrE_error h2
          | ok tstr =>
              simp only [h2] at h
              cases h3 : sectionField s "content" with
              | error e3 => simp only [h3] at h; cases h; exact sectionField_error h3
              | ok cj =>
                  simp only [h3] at h
                  cases h4 : asStrE cj with
                  | error e4 => simp only [h4, Except.map] at h; cases h; exact asStrE_error h4
                  | ok cstr =>
                      simp only [h4, Except.map] at h
                      cases h5 : sectionsText rest with
                      | error e5 => simp only [h5] at h; cases h; exact ih h5
                      | ok restText => simp only [h5] at h; cases h

theorem wholeDocContent_error {fields : List (String × PyJson)} {e : PyErr}
    (h : wholeDocContent fields = .error e) : ∃ m, e = .typeError m := by
  unfold wholeDocContent at h
  cases h1 : asStrE (metaAbstract fields) with
  | error e1 => simp only [h1] at h; cases h; exact asStrE_error h1
  | ok abs =>
      simp only [h1] at h
      cases h2 : sectionsList (metaSections fields) with
      | error e2 => simp only [h2] at h; cases h; exact sectionsList_error h2
      | ok secs =>
          simp only [h2] at h
          cases h3 : sectionsText secs with
          | error e3 => simp only [h3] at h; cases h; exact sectionsText_error h3
          | ok rest => simp only [h3] at h; cases h

/-- Every error of `computeContent` is a type error or a `SectionNotFound`
for the requested title; in particular it is never a `DocumentNotFound`. -/
theorem computeContent_error {metadata : PyJson} {section_title : Option String}
    {e : PyErr} (h : computeContent metadata section_title = .error e) :
    (∃ m, e = .typeError m) ∨ e = .sectionNotFound (section_title.getD "") := by
  unfold computeContent at h
  by_cases ht : pyTruthy section_title = true
  · rw [if_pos ht] at h
    cases metadata with
    | obj fields =>
        cases h1 : sectionsList (metaSections fields) with
        | error e1 => simp only [h1] at h; cases h; exact .inl (sectionsList_error h1)
        | ok secs =>
            simp only [h1] at h
            cases h2 : findSectionContent secs (section_title.getD "") with
            | error e2 => simp only [h2] at h; cases h; exact .inl (findSectionContent_error h2)
            | ok res =>
                simp only [h2] at h
                cases res with
                | none => cases h; exact .inr rfl
                | some c => cases h
    | str s => cases h; exact .inl ⟨_, rfl⟩
    | num n => cases h; exact .inl ⟨_, rfl⟩
    | bool b => cases h; exact .inl ⟨_, rfl⟩
    | null => cases h; exact .inl ⟨_, rfl⟩
    | arr items => cases h; exact .inl ⟨_, rfl⟩
  · rw [if_neg ht] at h
    cases metadata with
    | obj fields => exact .inl (wholeDocContent_error h)
    | str s => cases h; exact .inl ⟨_, rfl⟩
    | num n => cases h; exact .inl ⟨_, rfl⟩
    | bool b => cases h; exact .inl ⟨_, rfl⟩
    | null => cases h; exact .inl ⟨_, rfl⟩
    | arr items => cases h; exact .inl ⟨_, rfl⟩

/-- With an untruthy `section_title` (omitted or empty) the error of
`computeContent` can only be a type error: the `SectionNotFound` branch is
inside the truthy lookup. -/
theorem computeContent_untruthy_error {metadata : PyJson}
    {section_title : Option String} {e : PyErr}
    (ht : pyTruthy section_title = false)
    (h : computeContent metadata section_title = .error e) :
    ∃ m, e = .typeError m := by
  unfold computeContent at h
  rw [ht] at h
  simp only [Bool.false_eq_true, if_false] at h
  cases metadata with
  | obj fields => exact wholeDocContent_error h
  | str s => cases h; exact ⟨_, rfl⟩
  | num n => cases h; exact ⟨_, rfl⟩
  | bool b => cases h; exact ⟨_, rfl⟩
  | null => cases h; exact ⟨_, rfl⟩
  | arr items => cases h; exact ⟨_, rfl⟩

theorem sectionTitleVal_field {s : PyJson} {t : String}
    (h : sectionTitleVal s = some t) : sectionField s "title" = .ok (.str t) := by
  cases s with
  | obj fields =>
      unfold sectionTitleVal at h
      cases hk : objGet fields "title" with
      | none => simp only [hk] at h; cases h
      | some v =>
          cases v <;> simp only [hk] at h <;> cases h
          simp [sectionField, hk]
  | str s => exact absurd h (by simp [sectionTitleVal])
  | num n => exact absurd h (by simp [sectionTitleVal])
  | bool b => exact absurd h (by simp [sectionTitleVal])
  | null => exact absurd h (by simp [sectionTitleVal])
  | arr items => exact absurd h (by simp [sectionTitleVal])

theorem sectionContentVal_field {s : PyJson} {c : String}
    (h : sectionContentVal s = some c) : sectionField s "content" = .ok (.str c) := by
  cases s with
  | obj fields =>
      unfold sectionContentVal at h
      cases hk : objGet fields "content" with
      | none => simp only [hk] at h; cases h
      | some v =>
          cases v <;> simp only [hk] at h <;> cases h
          simp [sectionField, hk]
  | str s => exact absurd h (by simp [sectionContentVal])
  | num n => exact absurd h (by simp [sectionContentVal])
  | bool b => exact absurd h (by simp [sectionContentVal])
  | null => exact absurd h (by simp [sectionContentVal])
  | arr items => exact absurd h (by simp [sectionContentVal])

/-- On a well-typed section list the lookup loop realises exactly
`List.find?` with the case-insensitive predicate of line 160, returning the
content of the first match. -/
theorem findSectionContent_wellTyped {sections : List PyJson} {t : String}
    (hwt : ∀ s ∈ sections, wellTypedSection s = true) :
    findSectionContent sections t =
      .ok ((sections.find? (titleMatches t)).map
            (fun s => (sectionContentVal s).getD "")) := by
  induction sections with
  | nil => simp [findSectionContent]
  | cons s rest ih =>
      have hs : wellTypedSection s = true := hwt s (by simp)
      have hrest : ∀ x ∈ rest, wellTypedSection x = true := by
        intro x hx
        exact hwt x (by simp [hx])
      unfold wellTypedSection at hs
      rw [Bool.and_eq_true] at hs
      obtain ⟨ts, hts⟩ := Option.isSome_iff_exists.mp hs.1
      obtain ⟨cs, hcs⟩ := Option.isSome_iff_exists.mp hs.2
      unfold findSectionContent
      rw [sectionTitleVal_field hts]
      simp only [asStrE]
      by_cases hm : pyLower ts = pyLower t
      · rw [if_pos hm, sectionContentVal_field hcs]
        have hpred : titleMatches t s = true := by
          simp [titleMatches, hts, hm]
        rw [List.find?_cons_of_pos _ hpred]
        simp [asStrE, Except.map, hcs]
      · rw [if_neg hm]
        have hpred : titleMatches t s = false := by
          simp [titleMatches, hts]
          exact hm
        rw [List.find?_cons_of_neg _ (by simp [hpred])]
        exact ih hrest

theorem pyTruthy_some_ne {t : String} (h : t ≠ "") : pyTruthy (some t) = true := by
  have hf : t.isEmpty = false := by
    cases hempty : t.isEmpty with
    | false => rfl
    | true => exact absurd ((String.isEmpty_iff t).mp hempty) h
  simp [pyTruthy, hf]

/-! ### Claim theorems -/

/-- C10: for every store, document identifier, generation capability and
granularity, calling Summarize with `section_title` equal to the empty
string is exactly the same operation as omitting `section_title`: the empty
string is falsy in the `if section_title:` guard of line 157, so the call
summarises the whole document and can never fail with `SectionNotFound`. -/
theorem summarize_empty_title_whole_document (gen : GenCap) (store : Store)
    (document_id granularity : String) :
    summarize_document_section gen store document_id (some "") granularity =
      summarize_document_section gen store document_id none granularity ∧
    ∀ t, (summarize_document_section gen store document_id (some "") granularity).1 ≠
      .error (.sectionNotFound t) := by
  have htr : pyTruthy (some "") = false := rfl
  have hcc : ∀ md, computeContent md (some "") = computeContent md none := by
    intro md
    unfold computeContent
    rw [htr]
    rfl
  constructor
  · unfold summarize_document_section
    simp only [hcc]
  · intro t hcontra
    cases hl : lookupStore store document_id with
    | none =>
        simp only [summarize_document_section, hl] at hcontra
        cases hcontra
    | some doc =>
        cases hc : computeContent doc.metadata (some "") with
        | error e =>
            simp only [summarize_document_section, hl, hc] at hcontra
            obtain ⟨m, hm⟩ := computeContent_untruthy_error htr hc
            cases hcontra
            cases hm
        | ok c =>
            by_cases hb : pyStrip c = ""
            · simp only [summarize_document_section, hl, hc, if_pos hb] at hcontra
              cases hcontra
            · cases hg : gen (summPrompt granularity c) with
              | error e =>
                  simp only [summarize_document_section, hl, hc, if_neg hb, hg] at hcontra
                  cases hcontra
              | ok resp =>
                  simp only [summarize_document_section, hl, hc, if_neg hb, hg] at hcontra
                  cases hcontra

/-- C5: whenever the content Summarize assembles (`computeContent`, i.e. the
matched section content or the whole-document block of lines 156-170) is
empty or whitespace-only, the operation returns exactly the sentinel string
and performs zero generation-capability calls. -/
theorem summarize_blank_content_sentinel (gen : GenCap) (store : Store)
    (document_id : String) (section_title : Option String) (granularity : String)
    (doc : ProcessedDocument) (content : String)
    (hdoc : lookupStore store document_id = some doc)
    (hc : computeContent doc.metadata section_title = .ok content)
    (hblank : pyStrip content = "") :
    summarize_document_section gen store document_id section_title granularity =
      (.ok "No content found to summarize.", 0) := by
  simp only [summarize_document_section, hdoc, hc, if_pos hblank]

/-- C5 witness: a stored document whose abstract is empty and whose section
list is empty assembles the whitespace-only block `"\n\n"`, and Summarize
returns the sentinel without calling the generation capability. -/
theorem summarize_blank_content_sentinel_witness :
    summarize_document_section exGen exStore "d2" none "overview" =
      (.ok "No content found to summarize.", 0) :=
  summarize_blank_content_sentinel exGen exStore "d2" none "overview"
    exDocEmpty "\n\n" rfl rfl rfl

/-- C2: each of the query operations first resolves the document id against
the Store: on an unknown id each fails with `DocumentNotFound` and performs
zero generation-capability calls, and on a known id none of them can fail
with `DocumentNotFound`. -/
theorem query_ops_document_not_found (genq gens gene : GenCap)
    (json_loads : String → Option PyJson) (store : Store)
    (document_id question : String) (section_title : Option String)
    (granularity extraction_query : String) :
    (lookupStore store document_id = none →
       query_document genq store document_id question =
         (.error (.documentNotFound document_id), 0) ∧
       summarize_document_section gens store document_id section_title granularity =
         (.error (.documentNotFound document_id), 0) ∧
       extract_evaluation_results gene json_loads store document_id extraction_query =
         (.error (.documentNotFound document_id), 0)) ∧
    (∀ doc, lookupStore store document_id = some doc →
       (∀ d, (query_document genq store document_id question).1 ≠
          .error (.documentNotFound d)) ∧
       (∀ d, (summarize_document_section gens store document_id section_title
                granularity).1 ≠ .error (.documentNotFound d)) ∧
       (∀ d, (extract_evaluation_results gene json_loads store document_id
                extraction_query).1 ≠ .error (.documentNotFound d))) := by
  constructor
  · intro h
    refine ⟨?_, ?_, ?_⟩ <;>
      simp [query_document, summarize_document_section, extract_evaluation_results, h]
  · intro doc hdoc
    refine ⟨?_, ?_, ?_⟩
    · intro d hcontra
      cases hg : genq (qaPrompt (jsonDumps doc.metadata) question) with
      | error e =>
          simp only [query_document, hdoc, hg] at hcontra
          cases hcontra
      | ok resp =>
          simp only [query_document, hdoc, hg] at hcontra
          cases hcontra
    · intro d hcontra
      cases hc : computeContent doc.metadata section_title with
      | error e =>
          simp only [summarize_document_section, hdoc, hc] at hcontra
          rcases computeContent_error hc with ⟨m, hm⟩ | hm <;>
            (cases hcontra; cases hm)
      | ok c =>
          by_cases hb : pyStrip c = ""
          · simp only [summarize_document_section, hdoc, hc, if_pos hb] at hcontra
            cases hcontra
          · cases hg : gens (summPrompt granularity c) with
            | error e =>
                simp only [summarize_document_section, hdoc, hc, if_neg hb, hg] at hcontra
                cases hcontra
            | ok resp =>
                simp only [summarize_document_section, hdoc, hc, if_neg hb, hg] at hcontra
                cases hcontra
    · intro d hcontra
      cases hg : gene (extractPrompt (jsonDumps doc.metadata) extraction_query) with
      | error e =>
          simp only [extract_evaluation_results, hdoc, hg] at hcontra
          cases hcontra
      | ok resp =>
          cases hj : json_loads resp with
          | none =>
              simp only [extract_evaluation_results, hdoc, hg, hj] at hcontra
              cases hcontra
          | some v =>
              simp only [extract_evaluation_results, hdoc, hg, hj] at hcontra
              cases hcontra

/-- C2 witness: on the unknown id `"missing"` all three operations fail
with `DocumentNotFound` and zero generation calls; on the known id `"d1"`
none of them produces a `DocumentNotFound`. -/
theorem query_ops_document_not_found_witness :
    (query_document exGen exStore "missing" "Q?" =
       (.error (.documentNotFound "missing"), 0) ∧
     summarize_document_section exGen exStore "missing" none "overview" =
       (.error (.documentNotFound "missing"), 0) ∧
     extract_evaluation_results exGen (fun _ => none) exStore "missing" "metrics" =
       (.error (.documentNotFound "missing"), 0)) ∧
    (∀ d, (query_document exGen exStore "d1" "Q?").1 ≠
       .error (.documentNotFound d)) :=
  ⟨(query_ops_document_not_found exGen exGen exGen (fun _ => none) exStore
      "missing" "Q?" none "overview" "metrics").1 rfl,
   ((query_ops_document_not_found exGen exGen exGen (fun _ => none) exStore
      "d1" "Q?" none "overview" "metrics").2 exDocA rfl).1⟩

/-- C3: whenever content sniffing (`filetype.guess`) yields no type or a
non-PDF MIME type, the Ingestion Pipeline fails with `UnsupportedFormat`
and leaves the Store unchanged, for every filename argument — the decision
depends only on the sniffed byte content. -/
theorem ingest_rejects_non_pdf_content
    (filetype_guess : Bytes → Option String) (file_content : Bytes)
    (h : filetype_guess file_content = none ∨
         ∃ m, filetype_guess file_content = some m ∧ m ≠ "application/pdf") :
    ∀ (filename doc_id : String) (rasterize : Bytes → Except String (List Image))
      (gen_extract : List Image → Except String String)
      (json_loads : String → Option PyJson) (store : Store),
      ∃ msg,
        process_pdf_document filetype_guess doc_id rasterize gen_extract json_loads
            store file_content filename =
          (.error (.unsupportedFormat msg), store) := by
  intro filename doc_id rasterize gen_extract json_loads store
  rcases h with h | ⟨m, hm, hne⟩
  · refine ⟨"Could not determine file type from content.", ?_⟩
    unfold process_pdf_document
    rw [h]
  · refine ⟨"Unsupported file type: " ++ m ++ ". Only PDFs are allowed.", ?_⟩
    unfold process_pdf_document
    rw [hm]
    simp [hne]

/-- A sniffer reporting plain text: the content-based result for a text
payload, whatever the filename says. -/
def exGuessTxt : Bytes → Option String := fun _ => some "text/plain"

/-- A rasteriser oracle producing no pages. -/
def exRast : Bytes → Except String (List Image) := fun _ => .ok []

/-- An extraction-capability oracle with a fixed response. -/
def exGenExtract : List Image → Except String String := fun _ => .ok "x"

/-- A `json.loads` oracle that always fails to parse. -/
def exLoadsNone : String → Option PyJson := fun _ => none

/-- C3 witness: a text payload uploaded under the name `note.pdf` (a PDF
extension on non-PDF bytes) is rejected with `UnsupportedFormat` and the
Store stays empty. -/
theorem ingest_rejects_non_pdf_content_witness :
    ∃ msg,
      process_pdf_document exGuessTxt "id-1" exRast exGenExtract exLoadsNone
          [] [104, 105] "note.pdf" =
        (.error (.unsupportedFormat msg), []) :=
  ingest_rejects_non_pdf_content exGuessTxt [104, 105]
    (.inr ⟨"text/plain", rfl, by decide⟩) "note.pdf" "id-1" exRast exGenExtract
    exLoadsNone []

theorem objGetD_none {fields : List (String × PyJson)} {k : String} {d : PyJson}
    (h : objGet fields k = none) : objGetD fields k d = d := by
  simp [objGetD, h]

theorem objGetD_some {fields : List (String × PyJson)} {k : String} {d v : PyJson}
    (h : objGet fields k = some v) : objGetD fields k d = v := by
  simp [objGetD, h]

/-- Shape analysis of `process_pdf_document`: every run either fails leaving
the given store untouched, or succeeds with the freshly assembled document
registered under `doc_id`. -/
theorem process_pdf_cases (filetype_guess : Bytes → Option String)
    (doc_id : String) (rasterize : Bytes → Except String (List Image))
    (gen_extract : List Image → Except String String)
    (json_loads : String → Option PyJson) (store : Store)
    (file_content : Bytes) (filename : String) :
    (∃ e, process_pdf_document filetype_guess doc_id rasterize gen_extract
        json_loads store file_content filename = (.error e, store)) ∨
    (∃ fields,
       process_pdf_document filetype_guess doc_id rasterize gen_extract
           json_loads store file_content filename =
         (.ok { id := doc_id, filename := filename,
                extracted_text := objGetD fields "text_content" (.str ""),
                metadata := .obj fields },
          dictSet store doc_id
            { id := doc_id, filename := filename,
              extracted_text := objGetD fields "text_content" (.str ""),
              metadata := .obj fields })) := by
  cases hfg : filetype_guess file_content with
  | none =>
      exact .inl ⟨.unsupportedFormat "Could not determine file type from content.",
        by simp [process_pdf_document, hfg]⟩
  | some mime =>
      by_cases hm : mime = "application/pdf"
      · subst hm
        cases hrz : rasterize file_content with
        | error e =>
            exact .inl ⟨.conversionError ("Error converting PDF pages to images: " ++ e),
              by simp [process_pdf_document, hfg, hrz]⟩
        | ok imgs =>
            cases hge : gen_extract imgs with
            | error e =>
                exact .inl ⟨.extractionError e,
                  by simp [process_pdf_document, hfg, hrz, hge]⟩
            | ok raw =>
                cases hjl : json_loads raw with
                | none =>
                    exact .inl ⟨.extractionError "JSONDecodeError",
                      by simp [process_pdf_document, hfg, hrz, hge, hjl]⟩
                | some v =>
                    cases v with
                    | obj fields =>
                        exact .inr ⟨fields,
                          by simp [process_pdf_document, hfg, hrz, hge, hjl]⟩
                    | str s =>
                        exact .inl ⟨.extractionError "AttributeError",
                          by simp [process_pdf_document, hfg, hrz, hge, hjl]⟩
                    | num n =>
                        exact .inl ⟨.extractionError "AttributeError",
                          by simp [process_pdf_document, hfg, hrz, hge, hjl]⟩
                    | bool b =>
                        exact .inl ⟨.extractionError "AttributeError",
                          by simp [process_pdf_document, hfg, hrz, hge, hjl]⟩
                    | null =>
                        exact .inl ⟨.extractionError "AttributeError",
                          by simp [process_pdf_document, hfg, hrz, hge, hjl]⟩
                    | arr items =>
                        exact .inl ⟨.extractionError "AttributeError",
                          by simp [process_pdf_document, hfg, hrz, hge, hjl]⟩
      · exact .inl ⟨.unsupportedFormat ("Unsupported file type: " ++ mime ++ ". Only PDFs are allowed."),
          by simp [process_pdf_document, hfg, hm]⟩

/-- C8: ingestion is atomic with respect to the Store.  On every failing run
the Store is returned unchanged (nothing is registered before the final
persistence step), and on every successful run the new document carries the
generated id and given filename and exactly one entry — the fresh binding —
is added, all other bindings being untouched. -/
theorem ingest_atomic_store_update (filetype_guess : Bytes → Option String)
    (doc_id : String) (rasterize : Bytes → Except String (List Image))
    (gen_extract : List Image → Except String String)
    (json_loads : String → Option PyJson) (store : Store)
    (file_content : Bytes) (filename : String) :
    (∀ e, (process_pdf_document filetype_guess doc_id rasterize gen_extract
        json_loads store file_content filename).1 = .error e →
       (process_pdf_document filetype_guess doc_id rasterize gen_extract
          json_loads store file_content filename).2 = store) ∧
    (∀ doc, (process_pdf_document filetype_guess doc_id rasterize gen_extract
        json_loads store file_content filename).1 = .ok doc →
       doc.id = doc_id ∧ doc.filename = filename ∧
       (process_pdf_document filetype_guess doc_id rasterize gen_extract
          json_loads store file_content filename).2 = dictSet store doc_id doc) ∧
    (∀ doc, lookupStore store doc_id = none →
       (process_pdf_document filetype_guess doc_id rasterize gen_extract
          json_loads store file_content filename).1 = .ok doc →
       (process_pdf_document filetype_guess doc_id rasterize gen_extract
          json_loads store file_content filename).2 = store ++ [(doc_id, doc)] ∧
       (process_pdf_document filetype_guess doc_id rasterize gen_extract
          json_loads store file_content filename).2.length = store.length + 1 ∧
       lookupStore (process_pdf_document filetype_guess doc_id rasterize gen_extract
          json_loads store file_content filename).2 doc_id = some doc ∧
       (∀ k, k ≠ doc_id →
          lookupStore (process_pdf_document filetype_guess doc_id rasterize gen_extract
            json_loads store file_content filename).2 k = lookupStore store k)) := by
  rcases process_pdf_cases filetype_guess doc_id rasterize gen_extract json_loads
      store file_content filename with ⟨e0, hp⟩ | ⟨fields, hp⟩
  · refine ⟨?_, ?_, ?_⟩
    · intro e _
      rw [hp]
    · intro doc hdoc
      rw [hp] at hdoc
      cases hdoc
    · intro doc _ hdoc
      rw [hp] at hdoc
      cases hdoc
  · refine ⟨?_, ?_, ?_⟩
    · intro e he
      rw [hp] at he
      cases he
    · intro doc hdoc
      rw [hp] at hdoc
      cases hdoc
      exact ⟨rfl, rfl, by rw [hp]⟩
    · intro doc hfresh hdoc
      rw [hp] at hdoc
      cases hdoc
      rw [hp]
      refine ⟨dictSet_not_mem _ _ _ hfresh, ?_, lookup_dictSet_self _ _ _, ?_⟩
      · rw [dictSet_not_mem _ _ _ hfresh]
        simp
      · intro k hk
        exact lookup_dictSet_ne _ _ _ _ hk

/-- A sniffer reporting PDF content. -/
def exGuessPdf : Bytes → Option String := fun _ => some "application/pdf"

/-- A `json.loads` oracle parsing every response to the object
`\x7b"title": "T"\x7d`, which lacks `abstract`, `sections`, `references`
and `text_content`. -/
def exLoadsObjT : String → Option PyJson := fun _ => some (.obj [("title", .str "T")])

/-- C8 witness: a successful ingestion into the empty Store grows it to one
entry, and a failing ingestion (text payload) leaves the empty Store empty. -/
theorem ingest_atomic_store_update_witness :
    (process_pdf_document exGuessPdf "d9" exRast exGenExtract exLoadsObjT
       [] [37] "p.pdf").2.length = List.length ([] : Store) + 1 ∧
    (process_pdf_document exGuessTxt "d9" exRast exGenExtract exLoadsObjT
       [] [37] "p.pdf").2 = [] :=
  ⟨((ingest_atomic_store_update exGuessPdf "d9" exRast exGenExtract exLoadsObjT
       [] [37] "p.pdf").2.2
      { id := "d9", filename := "p.pdf", extracted_text := .str "",
        metadata := .obj [("title", .str "T")] } rfl rfl).2.1,
   (ingest_atomic_store_update exGuessTxt "d9" exRast exGenExtract exLoadsObjT
       [] [37] "p.pdf").1
     (.unsupportedFormat "Unsupported file type: text/plain. Only PDFs are allowed.")
     rfl⟩

/-- C9: when the extraction response parses as a JSON object, ingestion
succeeds no matter which of the fields `title`, `abstract`, `sections`,
`references` are present: the parsed object is stored as the document
metadata unchanged, and every individual field read in the backend goes
through `dict.get` with an empty-string / empty-list default
(`metaTitle` / `metaAbstract` / `metaSections` / `metaReferences`), which
yields the empty value for a missing field and the stored value for a
present one. -/
theorem ingest_permissive_missing_fields (filetype_guess : Bytes → Option String)
    (doc_id : String) (rasterize : Bytes → Except String (List Image))
    (gen_extract : List Image → Except String String)
    (json_loads : String → Option PyJson) (store : Store)
    (file_content : Bytes) (filename : String)
    (imgs : List Image) (raw : String) (fields : List (String × PyJson))
    (hfg : filetype_guess file_content = some "application/pdf")
    (hrz : rasterize file_content = .ok imgs)
    (hge : gen_extract imgs = .ok raw)
    (hjl : json_loads raw = some (.obj fields)) :
    (process_pdf_document filetype_guess doc_id rasterize gen_extract
        json_loads store file_content filename).1 =
      .ok { id := doc_id, filename := filename,
            extracted_text := objGetD fields "text_content" (.str ""),
            metadata := .obj fields } ∧
    (objGet fields "title" = none → metaTitle fields = .str "") ∧
    (∀ v, objGet fields "title" = some v → metaTitle fields = v) ∧
    (objGet fields "abstract" = none → metaAbstract fields = .str "") ∧
    (∀ v, objGet fields "abstract" = some v → metaAbstract fields = v) ∧
    (objGet fields "sections" = none → metaSections fields = .arr []) ∧
    (∀ v, objGet fields "sections" = some v → metaSections fields = v) ∧
    (objGet fields "references" = none → metaReferences fields = .arr []) ∧
    (∀ v, objGet fields "references" = some v → metaReferences fields = v) := by
  refine ⟨by simp [process_pdf_document, hfg, hrz, hge, hjl], ?_, ?_, ?_, ?_, ?_, ?_, ?_, ?_⟩
  · intro h; exact objGetD_none h
  · intro v h; exact objGetD_some h
  · intro h; exact objGetD_none h
  · intro v h; exact objGetD_some h
  · intro h; exact objGetD_none h
  · intro v h; exact objGetD_some h
  · intro h; exact objGetD_none h
  · intro v h; exact objGetD_some h

/-- C9 witness: a parsed object carrying only `title` ingests successfully;
the present `title` is preserved and the missing `abstract` reads as the
empty string. -/
theorem ingest_permissive_missing_fields_witness :
    (process_pdf_document exGuessPdf "d7" exRast exGenExtract exLoadsObjT
        [] [37] "q.pdf").1 =
      .ok { id := "d7", filename := "q.pdf", extracted_text := .str "",
            metadata := .obj [("title", .str "T")] } ∧
    metaTitle [("title", .str "T")] = .str "T" ∧
    metaAbstract [("title", .str "T")] = .str "" := by
  obtain ⟨h1, _, h3, h4, _⟩ :=
    ingest_permissive_missing_fields exGuessPdf "d7" exRast exGenExtract exLoadsObjT
      [] [37] "q.pdf" [] "x" [("title", .str "T")] rfl rfl rfl rfl
  exact ⟨h1, h3 (.str "T") rfl, h4 rfl⟩

/-- C4: on a stored document with a well-typed section list, Summarize with
a non-empty `sectionTitle` selects the first section (in document order)
whose title equals the given one case-insensitively and summarises only
that section's content; when no section matches case-insensitively it fails
with `SectionNotFound`; a title differing only in case from a stored title
matches and selects that section (the comparison is on `.lower()` values). -/
theorem summarize_section_lookup_first_case_insensitive (gen : GenCap)
    (store : Store) (document_id section_title granularity : String)
    (doc : ProcessedDocument) (fields : List (String × PyJson)) (secs : List PyJson)
    (hdoc : lookupStore store document_id = some doc)
    (hmeta : doc.metadata = .obj fields)
    (hsecs : metaSections fields = .arr secs)
    (hwt : ∀ s ∈ secs, wellTypedSection s = true)
    (ht : section_title ≠ "") :
    (secs.find? (titleMatches section_title) = none →
       summarize_document_section gen store document_id (some section_title)
           granularity =
         (.error (.sectionNotFound section_title), 0)) ∧
    (∀ s, secs.find? (titleMatches section_title) = some s →
       computeContent doc.metadata (some section_title) =
         .ok ((sectionContentVal s).getD "") ∧
       summarize_document_section gen store document_id (some section_title)
           granularity =
         (if pyStrip ((sectionContentVal s).getD "") = "" then
            ((.ok "No content found to summarize." : Except PyErr String), 0)
          else
            match gen (summPrompt granularity ((sectionContentVal s).getD "")) with
            | .error e => ((.error (.genFailure e) : Except PyErr String), 1)
            | .ok resp => (.ok (pyStrip resp), 1))) := by
  have htr : pyTruthy (some section_title) = true := pyTruthy_some_ne ht
  have hfind := findSectionContent_wellTyped (t := section_title) hwt
  constructor
  · intro hfd
    have hcc : computeContent doc.metadata (some section_title) =
        .error (.sectionNotFound section_title) := by
      rw [hmeta]
      simp only [computeContent, if_pos htr, hsecs, sectionsList, Option.getD_some,
        hfind, hfd, Option.map_none']
    simp only [summarize_document_section, hdoc, hcc]
  · intro s hfd
    have hcc : computeContent doc.metadata (some section_title) =
        .ok ((sectionContentVal s).getD "") := by
      rw [hmeta]
      simp only [computeContent, if_pos htr, hsecs, sectionsList, Option.getD_some,
        hfind, hfd, Option.map_some']
    refine ⟨hcc, ?_⟩
    simp only [summarize_document_section, hdoc, hcc]

/-- The first section record of `exSecs`. -/
def exSec0 : PyJson := .obj [("title", .str "Intro"), ("content", .str "Intro text.")]

/-- C4 witness: on `exDocA`, the lookup key `"INTRO"` (differing only in
case from the stored title `"Intro"`) selects the first section and the
section is summarised; the key `"Missing"` fails with `SectionNotFound`. -/
theorem summarize_section_lookup_first_case_insensitive_witness :
    summarize_document_section exGen exStore "d1" (some "INTRO") "overview" =
      (.ok "A generated response.", 1) ∧
    summarize_document_section exGen exStore "d1" (some "Missing") "overview" =
      (.error (.sectionNotFound "Missing"), 0) := by
  constructor
  · have h := ((summarize_section_lookup_first_case_insensitive exGen exStore "d1"
        "INTRO" "overview" exDocA exFields exSecs rfl rfl rfl (by decide)
        (by decide)).2 exSec0 (by rfl)).2
    rw [h]
    rfl
  · exact (summarize_section_lookup_first_case_insensitive exGen exStore "d1"
      "Missing" "overview" exDocA exFields exSecs rfl rfl rfl (by decide)
      (by decide)).1 (by rfl)

/-- C10 witness: on the stored document `"d1"`, the empty section title
gives the same outcome as the omitted one, and in particular no
`SectionNotFound`. -/
theorem summarize_empty_title_whole_document_witness :
    summarize_document_section exGen exStore "d1" (some "") "overview" =
      summarize_document_section exGen exStore "d1" none "overview" ∧
    (summarize_document_section exGen exStore "d1" (some "") "overview").1 ≠
      .error (.sectionNotFound "Intro") :=
  ⟨(summarize_empty_title_whole_document exGen exStore "d1" "overview").1,
   (summarize_empty_title_whole_document exGen exStore "d1" "overview").2 "Intro"⟩

/-- C1 counterexample: the put operation (`documents_store[doc_id] = doc`,
a plain dict assignment) does not fail when the id is already bound — it
silently replaces the existing entry.  With `exDocA` registered under
`"d1"`, putting `exDocB` (same id, different content) yields a store in
which the old entry is gone and the lookup returns the new document. -/
theorem put_overwrites_on_collision :
    storePut [("d1", exDocA)] exDocB = [("d1", exDocB)] ∧
    lookupStore (storePut [("d1", exDocA)] exDocB) "d1" = some exDocB ∧
    exDocB ≠ exDocA := by
  refine ⟨rfl, rfl, ?_⟩
  intro h
  exact absurd (congrArg ProcessedDocument.filename h) (by decide)

/-- C1 amended: put never fails.  It registers the document under its id:
for an id not already present the store is extended by exactly that entry
(appended, all other bindings untouched); for an id already present the
existing entry is silently replaced in place, keeping the store's size. -/
theorem put_upsert_spec (store : Store) (doc : ProcessedDocument) :
    lookupStore (storePut store doc) doc.id = some doc ∧
    (∀ k, k ≠ doc.id → lookupStore (storePut store doc) k = lookupStore store k) ∧
    (lookupStore store doc.id = none →
       storePut store doc = store ++ [(doc.id, doc)]) ∧
    (∀ w, lookupStore store doc.id = some w →
       (storePut store doc).length = store.length) := by
  refine ⟨lookup_dictSet_self _ _ _, ?_, ?_, ?_⟩
  · intro k hk
    exact lookup_dictSet_ne _ _ _ _ hk
  · intro h
    exact dictSet_not_mem _ _ _ h
  · intro w h
    exact dictSet_length_mem _ _ _ _ h

/-- C1 amended witness: putting into a store with a colliding id keeps the
size and rebinds the id; putting into the empty store appends the entry. -/
theorem put_upsert_spec_witness :
    lookupStore (storePut [("d1", exDocA)] exDocB) exDocB.id = some exDocB ∧
    (storePut [("d1", exDocA)] exDocB).length = [("d1", exDocA)].length ∧
    storePut [] exDocA = [] ++ [(exDocA.id, exDocA)] :=
  ⟨(put_upsert_spec [("d1", exDocA)] exDocB).1,
   (put_upsert_spec [("d1", exDocA)] exDocB).2.2.2 exDocA rfl,
   (put_upsert_spec [] exDocA).2.2.1 rfl⟩

/-- A generation capability answering with the JSON array text `[1]`. -/
def exArrGen : GenCap := fun _ => .ok "[1]"

/-- A `json.loads` oracle on the response `"[1]"`: in Python,
`json.loads("[1]")` succeeds and returns the list `[1]` — no
`JSONDecodeError` is raised. -/
def exLoadsArr : String → Option PyJson :=
  fun s => if s = "[1]" then some (.arr [.num 1]) else none

/-- C6 counterexample: when the capability's raw response is the valid JSON
text `"[1]"`, `json.loads` succeeds with a list, the `except
JSONDecodeError` branch is not taken, and the operation returns that list
unchanged — a result that is not JSON-object-shaped. -/
theorem extract_nonobject_result :
    extract_evaluation_results exArrGen exLoadsArr exStore "d1" "metrics" =
      (.ok (.arr [.num 1]), 1) ∧
    PyJson.isObj (.arr [.num 1]) = false :=
  ⟨rfl, rfl⟩

/-- C6 amended: for every stored document and query, once the generation
capability has produced a raw response the operation never fails: when the
response parses as JSON the parsed value is returned as-is (an object
exactly when the capability honoured the JSON-object constraint), and when
parsing fails the fixed single-key error-indicator object is returned. -/
theorem extract_parse_fallback (gen : GenCap)
    (json_loads : String → Option PyJson) (store : Store)
    (document_id query : String) (doc : ProcessedDocument) (resp : String)
    (hdoc : lookupStore store document_id = some doc)
    (hresp : gen (extractPrompt (jsonDumps doc.metadata) query) = .ok resp) :
    (∀ e, (extract_evaluation_results gen json_loads store document_id query).1 ≠
       .error e) ∧
    (json_loads resp = none →
       extract_evaluation_results gen json_loads store document_id query =
         (.ok (.obj [("error", .str "Could not parse extracted results as JSON.")]),
          1)) ∧
    (∀ v, json_loads resp = some v →
       extract_evaluation_results gen json_loads store document_id query =
         (.ok v, 1)) := by
  refine ⟨?_, ?_, ?_⟩
  · intro e hcontra
    cases hj : json_loads resp with
    | none =>
        simp only [extract_evaluation_results, hdoc, hresp, hj] at hcontra
        cases hcontra
    | some v =>
        simp only [extract_evaluation_results, hdoc, hresp, hj] at hcontra
        cases hcontra
  · intro hj
    simp only [extract_evaluation_results, hdoc, hresp, hj]
  · intro v hj
    simp only [extract_evaluation_results, hdoc, hresp, hj]

/-- C6 amended witness: an unparseable response yields the single-key error
object, and a parseable object response is returned as-is. -/
theorem extract_parse_fallback_witness :
    extract_evaluation_results exGen exLoadsNone exStore "d1" "metrics" =
      (.ok (.obj [("error", .str "Could not parse extracted results as JSON.")]),
       1) ∧
    extract_evaluation_results exGen exLoadsObjT exStore "d1" "metrics" =
      (.ok (.obj [("title", .str "T")]), 1) :=
  ⟨(extract_parse_fallback exGen exLoadsNone exStore "d1" "metrics" exDocA
      "  A generated response.  " rfl rfl).2.1 rfl,
   (extract_parse_fallback exGen exLoadsObjT exStore "d1" "metrics" exDocA
      "  A generated response.  " rfl rfl).2.2 (.obj [("title", .str "T")]) rfl⟩

/-- C7: the external search is wrapped in a catch-all.  Every failure of
the external paper-search capability yields the empty result list instead
of propagating, and on success the normalisation is one record per entry,
so a capability honouring the `max_results` cap yields at most
`max_results` records. -/
theorem arxiv_lookup_never_fails_outward
    (search : String → Nat → Except String (List ArxivEntry))
    (query : String) (max_results : Nat) :
    (∀ e, search query max_results = .error e →
       arxiv_lookup_tool search query max_results = []) ∧
    (∀ results, search query max_results = .ok results →
       results.length ≤ max_results →
       (arxiv_lookup_tool search query max_results).length ≤ max_results) := by
  constructor
  · intro e he
    simp [arxiv_lookup_tool, he]
  · intro results hr hlen
    simp only [arxiv_lookup_tool, hr, List.length_map]
    exact hlen

/-- A failing external search capability. -/
def exSearchFail : String → Nat → Except String (List ArxivEntry) :=
  fun _ _ => .error "network error"

/-- One bibliographic record from the external capability. -/
def exEntry : ArxivEntry :=
  { title := "Attention Is All You Need", authors := ["A. Author"],
    summary := "A paper.", entry_id := "http://arxiv.org/abs/1706.03762",
    published_iso := "2017-06-12T00:00:00" }

/-- A succeeding external search capability returning one record. -/
def exSearchOk : String → Nat → Except String (List ArxivEntry) :=
  fun _ _ => .ok [exEntry]

/-- C7 witness: a simulated capability failure yields the empty list, and a
one-record success stays within the default cap of 5. -/
theorem arxiv_lookup_never_fails_outward_witness :
    arxiv_lookup_tool exSearchFail "transformers" 5 = [] ∧
    (arxiv_lookup_tool exSearchOk "transformers" 5).length ≤ 5 :=
  ⟨(arxiv_lookup_never_fails_outward exSearchFail "transformers" 5).1
     "network error" rfl,
   (arxiv_lookup_never_fails_outward exSearchOk "transformers" 5).2
     [exEntry] rfl (by decide)⟩

end DocQA
